import Mathlib

/-!
Shallow embedding of the two-stage cloth-dataset pipeline:
stage 1 is `generate_dataset.py` (render loop with checkpoint/resume,
ambient-occlusion channel extraction, `metadata.jsonl` output) and
stage 2 is `generate_sketches.py` (Canny edge map blended with the
inverted ambient-occlusion pass via a per-pixel maximum).

Modelling conventions: uint8 pixel values are `Nat`, floating-point
draws and renderer buffer values are `ℚ`, the filesystem is a function
from structured paths to optional file contents, and the external
renderer / OpenCV primitives (Canny, Gaussian blur, color conversion)
are abstract function parameters.
-/

namespace ClothPipeline

/-- A grayscale uint8 image: row, column ↦ pixel value. -/
abbrev Gray := Nat → Nat → Nat

/-- A 3-channel uint8 image: row, column, channel ↦ pixel value. -/
abbrev Color := Nat → Nat → Nat → Nat

/-- The files the pipeline touches, keyed by frame index.  The scripts name
them `dataset/renders/render_NNNN.png`, `dataset/ao/ao_NNNN.png`,
`dataset/conditioning/conditioning_NNNN.png` and `dataset/metadata.jsonl`;
the three image kinds live in distinct directories and carry the frame
index, so the structured constructors are a faithful key model. -/
inductive FPath where
  | render (i : Nat)
  | ao (i : Nat)
  | conditioning (i : Nat)
  | metadata
deriving DecidableEq

/-- Contents of a file written by the pipeline. -/
inductive FileData where
  | rgb (pix : Color)
  | gray (pix : Gray)
  | txt (s : String)

/-- The filesystem: a path either holds a file or nothing. -/
abbrev FS := FPath → Option FileData

/-- Writing a file (create or overwrite). -/
def FS.update (fs : FS) (p : FPath) (d : FileData) : FS :=
  fun q => if q = p then some d else fs q

/-! ### Stage 1: generate_dataset.py -/

/-- The multi-channel floating-point buffer returned by `mi.render`
(shape H×W×C); `channels` is `render_np.shape[2]`. -/
structure Buf where
  channels : Nat
  data : Nat → Nat → Nat → ℚ

/-- `np.clip(x, 0.0, 1.0)`. -/
def clip01 (x : ℚ) : ℚ := max 0 (min 1 x)

/-- `(np.clip(x, 0.0, 1.0) * 255).astype(np.uint8)` for one value:
clamp to [0,1], scale to 8-bit, truncate toward zero. -/
def toByte (x : ℚ) : Nat := ((clip01 x) * 255).floor.toNat

/-- `beauty_uint8 = (np.clip(render_np[:, :, :3], 0, 1) * 255).astype(np.uint8)`. -/
def beauty_uint8 (b : Buf) : Color := fun i j c => toByte (b.data i j c)

/-- `cv2.cvtColor(beauty_uint8, cv2.COLOR_RGB2BGR)`: the file on disk holds
the channels reversed. -/
def beauty_bgr (b : Buf) : Color := fun i j c => beauty_uint8 b i j (2 - c)

/-- `ao_gray`: mean of the AOV channels 4..6 when the buffer has at least 7
channels, otherwise (with a printed warning) mean of the three color
channels (`np.mean(render_np[:, :, :3], axis=2)`). -/
def ao_gray (b : Buf) : Nat → Nat → ℚ :=
  if 7 ≤ b.channels then
    fun i j => (b.data i j 4 + b.data i j 5 + b.data i j 6) / 3
  else
    fun i j => (b.data i j 0 + b.data i j 1 + b.data i j 2) / 3

/-- Whether the luminance-fallback warning is printed for this buffer
(the `else` branch of the channel check). -/
def aoWarning (b : Buf) : Bool := decide (b.channels < 7)

/-- `ao_uint8 = (np.clip(ao_gray, 0.0, 1.0) * 255).astype(np.uint8)`. -/
def ao_uint8 (b : Buf) : Gray := fun i j => toByte (ao_gray b i j)

/-- `f"{i:04d}"`: decimal digits left-padded with zeros to width 4. -/
def pad4 (i : Nat) : String :=
  let s := toString i
  String.mk (List.replicate (4 - s.length) '0') ++ s

/-- One record appended to `metadata_records`. -/
structure MetaRecord where
  file_name : String
  conditioning_image : String
  ao_image : String
  text : String
deriving DecidableEq

/-- `"shiny silk" if roughness < 0.4 else "matte wool"`. -/
def material_desc (roughness : ℚ) : String :=
  if roughness < 2/5 then "shiny silk" else "matte wool"

/-- The prompt template instantiated with a material description. -/
def promptFor (desc : String) : String :=
  "a photorealistic 3D render of a " ++ desc ++
    " cloth, physical rendering, detailed fabric folds"

/-- The prompt built for a drawn roughness value. -/
def prompt (roughness : ℚ) : String := promptFor (material_desc roughness)

/-- The metadata record appended for frame `i` with drawn roughness. -/
def recordFor (i : Nat) (roughness : ℚ) : MetaRecord :=
  { file_name := "renders/render_" ++ pad4 i ++ ".png"
  , conditioning_image := "conditioning/conditioning_" ++ pad4 i ++ ".png"
  , ao_image := "ao/ao_" ++ pad4 i ++ ".png"
  , text := prompt roughness }

/-- The key/value pairs of a record, in the insertion order of the Python
dict literal. -/
def recordFields (r : MetaRecord) : List (String × String) :=
  [("file_name", r.file_name), ("conditioning_image", r.conditioning_image),
   ("ao_image", r.ao_image), ("text", r.text)]

/-- `json.dumps` of a flat string-valued object with the default
separators (none of the written values needs escaping). -/
def dumps (fields : List (String × String)) : String :=
  "\x7b" ++
    String.intercalate ", "
      (fields.map fun kv => "\"" ++ kv.1 ++ "\": \"" ++ kv.2 ++ "\"") ++
    "\x7d"

/-- `json.dumps(record)` for one metadata record. -/
def jsonLine (r : MetaRecord) : String := dumps (recordFields r)

/-- The full `metadata.jsonl` contents: one dumped record plus newline per
record, in list order. -/
def jsonlContent (records : List MetaRecord) : String :=
  String.join (records.map fun r => jsonLine r ++ "\n")

/-- The run state of the generator: the filesystem plus the in-memory
`metadata_records` list. -/
structure GenState where
  fs : FS
  records : List MetaRecord

/-- The checkpoint guard of the render loop:
`os.path.exists(render_path) and os.path.exists(ao_path)`. -/
def skips (fs : FS) (i : Nat) : Bool :=
  (fs (FPath.render i)).isSome && (fs (FPath.ao i)).isSome

/-- One iteration of the render loop for index `i`.  `rbuf i` is the
buffer the external renderer returns for frame `i` (it stands for
`np.array(mi.render(scene))` with the random scene of that frame), and
`rough i` is the roughness value drawn for frame `i`. -/
def genStep (rbuf : Nat → Buf) (rough : Nat → ℚ) (st : GenState) (i : Nat) :
    GenState :=
  if skips st.fs i then st
  else
    let b := rbuf i
    { fs := (st.fs.update (FPath.render i)
               (FileData.rgb (beauty_bgr b))).update (FPath.ao i)
               (FileData.gray (ao_uint8 b))
    , records := st.records ++ [recordFor i (rough i)] }

/-- The render loop `for i in range(NUM_SAMPLES)`, started on filesystem
`fs0` with an empty record list. -/
def genLoop (rbuf : Nat → Buf) (rough : Nat → ℚ) (fs0 : FS) (n : Nat) :
    GenState :=
  (List.range n).foldl (genStep rbuf rough) ⟨fs0, []⟩

/-- A complete generator run: the render loop followed by the final
`metadata.jsonl` write (write mode, so the file is replaced). -/
def genRun (rbuf : Nat → Buf) (rough : Nat → ℚ) (fs0 : FS) (n : Nat) :
    GenState :=
  let st := genLoop rbuf rough fs0 n
  { st with
      fs := st.fs.update FPath.metadata (FileData.txt (jsonlContent st.records)) }

/-- `NUM_SAMPLES` of the multi-mesh generator. -/
def NUM_SAMPLES : Nat := 1000

/-- The random light-related draws of one frame of the render loop. -/
structure LightDraws where
  lx : ℚ
  ly : ℚ
  lz : ℚ
  lt : ℚ × ℚ × ℚ
  intensity : ℚ
  fillFactor : ℚ

/-- The `direction` entry of the key light: `[lx, ly, lz]`. -/
def key_direction (d : LightDraws) : ℚ × ℚ × ℚ := (d.lx, d.ly, d.lz)

/-- `key_irr = [lt[0]*intensity, lt[1]*intensity, lt[2]*intensity]`. -/
def key_irr (d : LightDraws) : ℚ × ℚ × ℚ :=
  (d.lt.1 * d.intensity, d.lt.2.1 * d.intensity, d.lt.2.2 * d.intensity)

/-- The `direction` entry of the fill light: `[-lx, ly, -lz]`. -/
def fill_direction (d : LightDraws) : ℚ × ℚ × ℚ := (-d.lx, d.ly, -d.lz)

/-- `fill_intensity = intensity * random.uniform(0.1, 0.4)`. -/
def fill_intensity (d : LightDraws) : ℚ := d.intensity * d.fillFactor

/-- `fill_irr = [fill_intensity, fill_intensity, fill_intensity]`. -/
def fill_irr (d : LightDraws) : ℚ × ℚ × ℚ :=
  (fill_intensity d, fill_intensity d, fill_intensity d)

/-! ### Stage 2: generate_sketches.py -/

/-- `CANNY_LOW`. -/
def CANNY_LOW : Nat := 50

/-- `CANNY_HIGH`. -/
def CANNY_HIGH : Nat := 150

/-- `AO_WEIGHT = 0.6` as an exact rational. -/
def AO_WEIGHT : ℚ := 6/10

/-- The OpenCV primitives the sketch stage delegates to, treated as
black boxes: BGR→gray conversion, the 5×5 zero-sigma Gaussian blur, and
the dual-threshold Canny detector (low, high, input image). -/
structure CV where
  bgr2gray : Color → Gray
  gaussianBlur5 : Gray → Gray
  canny : Nat → Nat → Gray → Gray

/-- `cv2.Canny(cv2.GaussianBlur(cv2.cvtColor(beauty, BGR2GRAY), (5,5), 0),
CANNY_LOW, CANNY_HIGH)`. -/
def cannyEdges (cv : CV) (beauty : Color) : Gray :=
  cv.canny CANNY_LOW CANNY_HIGH (cv.gaussianBlur5 (cv.bgr2gray beauty))

/-- `cv2.bitwise_not` on one uint8 value. -/
def bitwiseNot (p : Nat) : Nat := 255 - p

/-- `(x.astype(np.float32) * AO_WEIGHT).astype(np.uint8)` for one uint8
value: for every integer `x` in [0, 255] the float32 product rounds and
then truncates to exactly `⌊x * 6/10⌋`, so the exact rational model agrees
with the float32 arithmetic of the script on the whole uint8 range. -/
def scaleAO (p : Nat) : Nat := ((p : ℚ) * AO_WEIGHT).floor.toNat

/-- `ao_shading = (cv2.bitwise_not(ao_gray).astype(np.float32) * AO_WEIGHT)
.astype(np.uint8)`. -/
def aoShadingOf (ao : Gray) : Gray := fun i j => scaleAO (bitwiseNot (ao i j))

/-- `np.zeros_like(canny_edges)`: the shading layer when the AO map is
missing. -/
def zeroImg : Gray := fun _ _ => 0

/-- `cv2.max`: per-pixel maximum of two uint8 images. -/
def cvMax (a b : Gray) : Gray := fun i j => max (a i j) (b i j)

/-- The basename of `out_path` for a frame string. -/
def condName (frame : String) : String := "conditioning_" ++ frame ++ ".png"

/-- One enumerated beauty-render file together with the results of the two
`cv2.imread` calls for it (`none` models a failed load). -/
structure FrameInput where
  frame : String
  beauty : Option Color
  ao : Option Gray

/-- The run state of the sketch stage: the conditioning files written so far
(in write order) and the `processed` / `skipped` counters, plus a count of
the missing-AO warnings printed. -/
structure SketchState where
  writes : List (String × Gray)
  processed : Nat
  skipped : Nat
  warnings : Nat

/-- `processed = 0; skipped = 0` before the processing loop. -/
def sketchInit : SketchState := ⟨[], 0, 0, 0⟩

/-- One iteration of the sketch processing loop: skip (with the error
print) when the beauty render failed to load; otherwise compute the edge
map, the shading layer (all zeros, after a warning, when the AO map failed
to load), blend by per-pixel maximum, and write the conditioning image. -/
def sketchStep (cv : CV) (st : SketchState) (f : FrameInput) : SketchState :=
  match f.beauty with
  | none => { st with skipped := st.skipped + 1 }
  | some beauty =>
    let edges := cannyEdges cv beauty
    let shading :=
      match f.ao with
      | some ao => aoShadingOf ao
      | none => zeroImg
    let warn := match f.ao with | some _ => 0 | none => 1
    { st with
        writes := st.writes ++ [(condName f.frame, cvMax edges shading)]
      , processed := st.processed + 1
      , warnings := st.warnings + warn }

/-- The processing loop continued from an arbitrary state. -/
def sketchRunFrom (cv : CV) (st : SketchState) (fs : List FrameInput) :
    SketchState :=
  fs.foldl (sketchStep cv) st

/-- A full sketch-stage run over the enumerated render files. -/
def sketchRun (cv : CV) (fs : List FrameInput) : SketchState :=
  sketchRunFrom cv sketchInit fs

/-! ### Concrete instances (used to evaluate the development on closed
inputs) -/

/-- A constant 7-channel buffer (rgba + albedo AOV). -/
def constBuf : Buf := ⟨7, fun _ _ _ => 0⟩

/-- A constant 4-channel buffer: the AOV channels are absent. -/
def constBuf3 : Buf := ⟨4, fun _ _ _ => 1/2⟩

/-- A renderer oracle returning the constant buffer for every frame. -/
def rbuf0 : Nat → Buf := fun _ => constBuf

/-- A roughness draw of 0.5 for every frame. -/
def rough0 : Nat → ℚ := fun _ => 1/2

/-- The empty filesystem. -/
def emptyFS : FS := fun _ => none

/-- The start state of the generator on the empty filesystem. -/
def st0 : GenState := ⟨emptyFS, []⟩

/-- A concrete stand-in for the OpenCV primitives. -/
def cvId : CV := ⟨fun c i j => c i j 0, fun g => g, fun _ _ g => g⟩

/-- A constant beauty image. -/
def beautyConst : Color := fun _ _ _ => 100

/-- A constant AO image. -/
def aoConst : Gray := fun _ _ => 55

/-- A frame whose beauty render and AO map both load. -/
def frameBoth : FrameInput := ⟨"0000", some beautyConst, some aoConst⟩

/-- A frame whose AO map fails to load. -/
def frameNoAO : FrameInput := ⟨"0001", some beautyConst, none⟩

/-- A frame whose beauty render fails to load. -/
def frameNoBeauty : FrameInput := ⟨"0002", none, some aoConst⟩

/-- Concrete light draws: factor 0.25 ∈ [0.1, 0.4], intensity 3. -/
def lightD : LightDraws := ⟨1, 1, -1, (1, 1, 1), 3, 1/4⟩

/-! ### Helper lemmas about the generator loop -/

theorem FS.update_same (fs : FS) (p : FPath) (d : FileData) :
    fs.update p d p = some d := by
  simp [FS.update]

theorem FS.update_other (fs : FS) {p q : FPath} (d : FileData) (h : q ≠ p) :
    fs.update p d q = fs q := by
  simp [FS.update, h]

theorem genStep_of_skips {rbuf : Nat → Buf} {rough : Nat → ℚ} {st : GenState}
    {i : Nat} (h : skips st.fs i = true) : genStep rbuf rough st i = st := by
  simp [genStep, h]

theorem genStep_of_not_skips {rbuf : Nat → Buf} {rough : Nat → ℚ}
    {st : GenState} {i : Nat} (h : ¬ skips st.fs i = true) :
    genStep rbuf rough st i =
      { fs := (st.fs.update (FPath.render i)
                 (FileData.rgb (beauty_bgr (rbuf i)))).update (FPath.ao i)
                 (FileData.gray (ao_uint8 (rbuf i)))
      , records := st.records ++ [recordFor i (rough i)] } := by
  simp [genStep, h]

theorem genStep_fs_ne {rbuf : Nat → Buf} {rough : Nat → ℚ} {st : GenState}
    {i : Nat} {p : FPath} (h1 : p ≠ FPath.render i) (h2 : p ≠ FPath.ao i) :
    (genStep rbuf rough st i).fs p = st.fs p := by
  by_cases h : skips st.fs i = true
  · rw [genStep_of_skips h]
  · rw [genStep_of_not_skips h]
    simp [FS.update, h1, h2]

theorem genStep_isSome {rbuf : Nat → Buf} {rough : Nat → ℚ} {st : GenState}
    {i : Nat} {p : FPath} (h : (st.fs p).isSome = true) :
    ((genStep rbuf rough st i).fs p).isSome = true := by
  by_cases hs : skips st.fs i = true
  · rw [genStep_of_skips hs]; exact h
  · rw [genStep_of_not_skips hs]
    by_cases hp2 : p = FPath.ao i
    · simp [hp2, FS.update]
    · by_cases hp1 : p = FPath.render i
      · simp [hp1, hp2, FS.update]
      · simp only [FS.update]
        simp [hp1, hp2, h]

theorem skips_genStep_mono {rbuf : Nat → Buf} {rough : Nat → ℚ}
    {st : GenState} {i j : Nat} (h : skips st.fs j = true) :
    skips (genStep rbuf rough st i).fs j = true := by
  rw [skips, Bool.and_eq_true] at h ⊢
  exact ⟨genStep_isSome h.1, genStep_isSome h.2⟩

theorem genStep_makes_complete (rbuf : Nat → Buf) (rough : Nat → ℚ)
    (st : GenState) (i : Nat) :
    skips (genStep rbuf rough st i).fs i = true := by
  by_cases hs : skips st.fs i = true
  · rw [genStep_of_skips hs]; exact hs
  · rw [genStep_of_not_skips hs, skips, Bool.and_eq_true]
    constructor
    · simp [FS.update]
    · simp [FS.update]

theorem genLoop_succ (rbuf : Nat → Buf) (rough : Nat → ℚ) (fs0 : FS)
    (n : Nat) :
    genLoop rbuf rough fs0 (n + 1) =
      genStep rbuf rough (genLoop rbuf rough fs0 n) n := by
  unfold genLoop
  rw [List.range_succ, List.foldl_append]
  rfl

theorem genLoop_complete {rbuf : Nat → Buf} {rough : Nat → ℚ} {fs0 : FS} :
    ∀ n j, j < n → skips (genLoop rbuf rough fs0 n).fs j = true := by
  intro n
  induction n with
  | zero => intro j hj; exact absurd hj (Nat.not_lt_zero j)
  | succ n ih =>
    intro j hj
    rw [genLoop_succ]
    rcases Nat.lt_succ_iff_lt_or_eq.mp hj with h | h
    · exact skips_genStep_mono (ih j h)
    · subst h; exact genStep_makes_complete _ _ _ _

theorem genLoop_skipAll {rbuf : Nat → Buf} {rough : Nat → ℚ} {fs0 : FS} :
    ∀ n, (∀ i, i < n → skips fs0 i = true) →
      genLoop rbuf rough fs0 n = ⟨fs0, []⟩ := by
  intro n
  induction n with
  | zero => intro _; rfl
  | succ n ih =>
    intro h
    rw [genLoop_succ, ih (fun i hi => h i (Nat.lt_succ_of_lt hi))]
    exact genStep_of_skips (h n (Nat.lt_succ_self n))

theorem genLoop_fs_untouched {rbuf : Nat → Buf} {rough : Nat → ℚ}
    {fs0 : FS} :
    ∀ n i, n ≤ i →
      (genLoop rbuf rough fs0 n).fs (FPath.render i) = fs0 (FPath.render i) ∧
      (genLoop rbuf rough fs0 n).fs (FPath.ao i) = fs0 (FPath.ao i) := by
  intro n
  induction n with
  | zero => intro i _; exact ⟨rfl, rfl⟩
  | succ n ih =>
    intro i hi
    have hni : n ≠ i := Nat.ne_of_lt (Nat.lt_of_succ_le hi)
    have h' := ih i (Nat.le_of_succ_le hi)
    rw [genLoop_succ]
    constructor
    · rw [genStep_fs_ne (by simp [hni.symm]) (by simp)]
      exact h'.1
    · rw [genStep_fs_ne (by simp) (by simp [hni.symm])]
      exact h'.2

theorem genLoop_skips_eq {rbuf : Nat → Buf} {rough : Nat → ℚ} {fs0 : FS}
    {n i : Nat} (h : n ≤ i) :
    skips (genLoop rbuf rough fs0 n).fs i = skips fs0 i := by
  have h' := @genLoop_fs_untouched rbuf rough fs0 n i h
  rw [skips, skips, h'.1, h'.2]

theorem genLoop_records (rbuf : Nat → Buf) (rough : Nat → ℚ) (fs0 : FS) :
    ∀ n, (genLoop rbuf rough fs0 n).records =
      ((List.range n).filter (fun i => ! skips fs0 i)).map
        (fun i => recordFor i (rough i)) := by
  intro n
  induction n with
  | zero => rfl
  | succ n ih =>
    rw [genLoop_succ, List.range_succ, List.filter_append, List.map_append]
    by_cases hs : skips fs0 n = true
    · have hs' : skips (genLoop rbuf rough fs0 n).fs n = true := by
        rw [genLoop_skips_eq (Nat.le_refl n)]; exact hs
      rw [genStep_of_skips hs', ih]
      simp [hs]
    · have hs' : ¬ skips (genLoop rbuf rough fs0 n).fs n = true := by
        rw [genLoop_skips_eq (Nat.le_refl n)]; exact hs
      rw [genStep_of_not_skips hs']
      simp only [GenState.records] at ih ⊢
      rw [ih]
      simp [hs]

/-! ### Helper lemmas about the sketch loop -/

theorem sketchStep_none {cv : CV} {st : SketchState} {f : FrameInput}
    (hf : f.beauty = none) :
    sketchStep cv st f = { st with skipped := st.skipped + 1 } := by
  simp [sketchStep, hf]

theorem sketchStep_some {cv : CV} {st : SketchState} {f : FrameInput}
    {beauty : Color} (hf : f.beauty = some beauty) :
    sketchStep cv st f =
      { st with
          writes := st.writes ++
            [(condName f.frame,
              cvMax (cannyEdges cv beauty)
                (match f.ao with | some ao => aoShadingOf ao | none => zeroImg))]
        , processed := st.processed + 1
        , warnings := st.warnings +
            (match f.ao with | some _ => 0 | none => 1) } := by
  simp [sketchStep, hf]

theorem sketchStep_processed (cv : CV) (st : SketchState) (f : FrameInput) :
    (sketchStep cv st f).processed =
      st.processed + (if f.beauty.isSome then 1 else 0) := by
  cases hf : f.beauty with
  | none => rw [sketchStep_none hf]; simp [hf]
  | some beauty => rw [sketchStep_some hf]; simp [hf]

theorem sketchStep_skipped (cv : CV) (st : SketchState) (f : FrameInput) :
    (sketchStep cv st f).skipped =
      st.skipped + (if f.beauty.isSome then 0 else 1) := by
  cases hf : f.beauty with
  | none => rw [sketchStep_none hf]; simp [hf]
  | some beauty => rw [sketchStep_some hf]; simp [hf]

theorem sketchStep_writes_len (cv : CV) (st : SketchState) (f : FrameInput) :
    (sketchStep cv st f).writes.length =
      st.writes.length + (if f.beauty.isSome then 1 else 0) := by
  cases hf : f.beauty with
  | none => rw [sketchStep_none hf]; simp [hf]
  | some beauty => rw [sketchStep_some hf]; simp [hf]

theorem sketchRunFrom_counts (cv : CV) :
    ∀ (fs : List FrameInput) (st : SketchState),
      (sketchRunFrom cv st fs).processed + (sketchRunFrom cv st fs).skipped =
        st.processed + st.skipped + fs.length ∧
      (sketchRunFrom cv st fs).writes.length + st.processed =
        (sketchRunFrom cv st fs).processed + st.writes.length := by
  intro fs
  induction fs with
  | nil => intro st; exact ⟨rfl, Nat.add_comm _ _⟩
  | cons f t ih =>
    intro st
    have hstep : sketchRunFrom cv st (f :: t) =
        sketchRunFrom cv (sketchStep cv st f) t := rfl
    rw [hstep]
    rcases ih (sketchStep cv st f) with ⟨h1, h2⟩
    rw [sketchStep_processed, sketchStep_skipped] at h1
    rw [sketchStep_processed, sketchStep_writes_len] at h2
    simp only [List.length_cons]
    rcases Bool.eq_false_or_eq_true f.beauty.isSome with hb | hb <;>
      simp only [hb, Bool.false_eq_true, Bool.true_eq_false, if_true,
        if_false, ite_true, ite_false, reduceIte] at h1 h2 <;>
      exact ⟨by omega, by omega⟩

/-! ### C1: the conditioning image is the per-pixel maximum of the Canny
edge map and the scaled inverted AO map -/

/-- C1: when both the beauty render and the AO image load, the sketch
stage writes one conditioning image equal to `cv2.max` of the Canny edge
map of the blurred grayscale beauty render and the inverted AO map scaled
by `AO_WEIGHT = 0.6` and truncated to uint8; each output pixel is the
per-pixel maximum of the two layers, hence at least the edge-map pixel. -/
theorem conditioning_pixelwise_max (cv : CV) (st : SketchState)
    (f : FrameInput) (beauty : Color) (ao : Gray) (i j : Nat)
    (hb : f.beauty = some beauty) (ha : f.ao = some ao) :
    (sketchStep cv st f).writes = st.writes ++
      [(condName f.frame, cvMax (cannyEdges cv beauty) (aoShadingOf ao))] ∧
    cvMax (cannyEdges cv beauty) (aoShadingOf ao) i j =
      max (cannyEdges cv beauty i j) (scaleAO (bitwiseNot (ao i j))) ∧
    cannyEdges cv beauty i j ≤
      cvMax (cannyEdges cv beauty) (aoShadingOf ao) i j ∧
    (sketchStep cv st f).processed = st.processed + 1 ∧
    (sketchStep cv st f).skipped = st.skipped := by
  rw [sketchStep_some hb, ha]
  exact ⟨rfl, rfl, le_max_left _ _, rfl, rfl⟩

/-! ### C6: missing AO map falls back to the edge map alone -/

/-- C6: when the beauty render loads but the AO image does not, the sketch
stage still writes a conditioning image; its shading layer is all zeros so
every pixel equals the Canny edge map, the frame counts as processed (not
skipped), and the missing-AO warning is printed once. -/
theorem ao_missing_fallback (cv : CV) (st : SketchState) (f : FrameInput)
    (beauty : Color) (i j : Nat)
    (hb : f.beauty = some beauty) (ha : f.ao = none) :
    (sketchStep cv st f).writes = st.writes ++
      [(condName f.frame, cvMax (cannyEdges cv beauty) zeroImg)] ∧
    cvMax (cannyEdges cv beauty) zeroImg i j = cannyEdges cv beauty i j ∧
    (sketchStep cv st f).processed = st.processed + 1 ∧
    (sketchStep cv st f).skipped = st.skipped ∧
    (sketchStep cv st f).warnings = st.warnings + 1 := by
  rw [sketchStep_some hb, ha]
  exact ⟨rfl, Nat.max_eq_left (Nat.zero_le _), rfl, rfl, rfl⟩

/-! ### C7: unreadable beauty render skips the frame and continues -/

/-- C7: when the beauty render cannot be loaded, the sketch stage
increments the skip counter by exactly one, writes nothing and leaves the
processed counter alone, and the loop continues with the remaining frames
from the incremented state instead of aborting. -/
theorem beauty_unreadable_skip (cv : CV) (st : SketchState) (f : FrameInput)
    (rest : List FrameInput) (hb : f.beauty = none) :
    sketchStep cv st f = { st with skipped := st.skipped + 1 } ∧
    (sketchStep cv st f).writes = st.writes ∧
    (sketchStep cv st f).processed = st.processed ∧
    (sketchStep cv st f).skipped = st.skipped + 1 ∧
    sketchRunFrom cv st (f :: rest) =
      sketchRunFrom cv (sketchStep cv st f) rest := by
  refine ⟨sketchStep_none hb, ?_, ?_, ?_, rfl⟩ <;> rw [sketchStep_none hb]

/-! ### C9: processed + skipped exactly partitions the enumerated files -/

/-- C9: after the sketch loop finishes, the processed and skipped counters
sum to the number of enumerated render files, and the number of written
conditioning images equals the processed counter — every enumerated file
yields exactly one write or one skip. -/
theorem sketch_counts_partition (cv : CV) (fs : List FrameInput) :
    (sketchRun cv fs).processed + (sketchRun cv fs).skipped = fs.length ∧
    (sketchRun cv fs).writes.length = (sketchRun cv fs).processed := by
  rcases sketchRunFrom_counts cv fs sketchInit with ⟨h1, h2⟩
  constructor
  · simpa [sketchRun, sketchInit] using h1
  · simpa [sketchRun, sketchInit] using h2

/-! ### More helper lemmas for the generator run -/

theorem skips_update_ne (fs : FS) (p : FPath) (d : FileData) (k : Nat)
    (h1 : FPath.render k ≠ p) (h2 : FPath.ao k ≠ p) :
    skips (fs.update p d) k = skips fs k := by
  rw [skips, skips, FS.update_other _ _ h1, FS.update_other _ _ h2]

theorem genRun_fs (rbuf : Nat → Buf) (rough : Nat → ℚ) (fs0 : FS) (n : Nat) :
    (genRun rbuf rough fs0 n).fs =
      (genLoop rbuf rough fs0 n).fs.update FPath.metadata
        (FileData.txt (jsonlContent (genLoop rbuf rough fs0 n).records)) :=
  rfl

theorem genRun_records (rbuf : Nat → Buf) (rough : Nat → ℚ) (fs0 : FS)
    (n : Nat) :
    (genRun rbuf rough fs0 n).records = (genLoop rbuf rough fs0 n).records :=
  rfl

theorem genRun_complete (rbuf : Nat → Buf) (rough : Nat → ℚ) (fs0 : FS)
    (n : Nat) : ∀ k, k < n → skips (genRun rbuf rough fs0 n).fs k = true := by
  intro k hk
  rw [genRun_fs, skips_update_ne _ _ _ _ (by simp) (by simp)]
  exact genLoop_complete n k hk

theorem genRun_rerun_fs (rbuf : Nat → Buf) (rough : Nat → ℚ) (fs0 : FS)
    {n n' : Nat} (h : n' ≤ n) :
    (genRun rbuf rough (genRun rbuf rough fs0 n).fs n').fs =
      (genRun rbuf rough fs0 n).fs.update FPath.metadata
        (FileData.txt (jsonlContent [])) := by
  have hskipall :
      genLoop rbuf rough (genRun rbuf rough fs0 n).fs n' =
        ⟨(genRun rbuf rough fs0 n).fs, []⟩ :=
    genLoop_skipAll n'
      (fun i hi => genRun_complete rbuf rough fs0 n i (Nat.lt_of_lt_of_le hi h))
  rw [genRun_fs, hskipall]

/-! ### C3: checkpoint skip and idempotent resume -/

/-- C3: one loop iteration leaves the state unchanged exactly when both
`render_i.png` and `ao_i.png` already exist (a skipped frame causes no
writes and appends no record); and re-running the generator over the
output of a completed run with a smaller or equal sample count leaves
every previously written render and AO file unchanged. -/
theorem resume_idempotent (rbuf : Nat → Buf) (rough : Nat → ℚ) (fs0 : FS)
    (st : GenState) (i n n' j : Nat) (h : n' ≤ n) :
    (genStep rbuf rough st i = st ↔ skips st.fs i = true) ∧
    (genRun rbuf rough (genRun rbuf rough fs0 n).fs n').fs (FPath.render j) =
      (genRun rbuf rough fs0 n).fs (FPath.render j) ∧
    (genRun rbuf rough (genRun rbuf rough fs0 n).fs n').fs (FPath.ao j) =
      (genRun rbuf rough fs0 n).fs (FPath.ao j) := by
  refine ⟨⟨?_, genStep_of_skips⟩, ?_, ?_⟩
  · intro he
    by_contra hs
    rw [genStep_of_not_skips hs] at he
    have hrec := congrArg GenState.records he
    simp at hrec
  · rw [genRun_rerun_fs rbuf rough fs0 h, FS.update_other _ _ (by simp)]
  · rw [genRun_rerun_fs rbuf rough fs0 h, FS.update_other _ _ (by simp)]

/-! ### C4: metadata.jsonl schema and one line per generated frame -/

/-- C4: after a generator run, the in-memory record list holds exactly one
record per non-skipped index, in frame-index order; `metadata.jsonl` holds
exactly the dumped records, one JSON line each; and every record dumps to
an object with exactly the four keys `file_name`, `conditioning_image`,
`ao_image`, `text`, all string-valued. -/
theorem metadata_schema (rbuf : Nat → Buf) (rough : Nat → ℚ) (fs0 : FS)
    (n : Nat) :
    (genRun rbuf rough fs0 n).records =
      ((List.range n).filter (fun i => ! skips fs0 i)).map
        (fun i => recordFor i (rough i)) ∧
    (genRun rbuf rough fs0 n).fs FPath.metadata =
      some (FileData.txt (jsonlContent (genRun rbuf rough fs0 n).records)) ∧
    (∀ records : List MetaRecord, jsonlContent records =
      String.join (records.map fun r => jsonLine r ++ "\n")) ∧
    (∀ r : MetaRecord, (recordFields r).map Prod.fst =
      ["file_name", "conditioning_image", "ao_image", "text"]) := by
  refine ⟨?_, ?_, fun _ => rfl, fun _ => rfl⟩
  · rw [genRun_records]
    exact genLoop_records rbuf rough fs0 n
  · rw [genRun_fs, genRun_records, FS.update_same]

/-! ### C5: the AO pass averages channels 4..6, with a luminance fallback -/

/-- C5: when the rendered buffer has at least 7 channels, the saved AO
image is the per-pixel mean of channels 4, 5, 6 clamped to [0,1] and
scaled to 8-bit, and no warning is printed; with fewer than 7 channels the
warning is printed and the mean of the first three (color) channels is
used instead, clamped and scaled the same way. -/
theorem ao_channel_selection (b : Buf) (i j : Nat) :
    (7 ≤ b.channels →
      ao_uint8 b i j =
        toByte ((b.data i j 4 + b.data i j 5 + b.data i j 6) / 3) ∧
      aoWarning b = false) ∧
    (b.channels < 7 →
      ao_uint8 b i j =
        toByte ((b.data i j 0 + b.data i j 1 + b.data i j 2) / 3) ∧
      aoWarning b = true) ∧
    (∀ x : ℚ, toByte x = ((max 0 (min 1 x)) * 255).floor.toNat) := by
  refine ⟨fun h => ⟨?_, ?_⟩, fun h => ⟨?_, ?_⟩, fun _ => rfl⟩
  · rw [ao_uint8, ao_gray, if_pos h]
  · rw [aoWarning, decide_eq_false_iff_not]
    exact Nat.not_lt.mpr h
  · rw [ao_uint8, ao_gray, if_neg (Nat.not_le.mpr h)]
  · rw [aoWarning, decide_eq_true_eq]
    exact h

/-! ### C8: the prompt bucket is decided by roughness < 0.4 -/

/-- C8: the `text` field of the metadata record equals the prompt template
instantiated with "shiny silk" exactly when the drawn roughness is
strictly below 0.4, and with "matte wool" exactly when it is at least
0.4. -/
theorem prompt_roughness_bucket (i : Nat) (r : ℚ) :
    ((recordFor i r).text = promptFor "shiny silk" ↔ r < 2/5) ∧
    ((recordFor i r).text = promptFor "matte wool" ↔ 2/5 ≤ r) := by
  have hne : promptFor "shiny silk" ≠ promptFor "matte wool" := by decide
  rcases lt_or_le r (2/5) with hr | hr
  · have ht : (recordFor i r).text = promptFor "shiny silk" := by
      show prompt r = _
      rw [prompt, material_desc, if_pos hr]
    refine ⟨⟨fun _ => hr, fun _ => ht⟩, ⟨fun h2 => ?_, fun h2 => ?_⟩⟩
    · rw [ht] at h2
      exact absurd h2 hne
    · exact absurd h2 (not_le.mpr hr)
  · have ht : (recordFor i r).text = promptFor "matte wool" := by
      show prompt r = _
      rw [prompt, material_desc, if_neg (not_lt.mpr hr)]
    refine ⟨⟨fun h2 => ?_, fun h2 => ?_⟩, ⟨fun _ => hr, fun _ => ht⟩⟩
    · rw [ht] at h2
      exact absurd h2.symm hne
    · exact absurd hr (not_le.mpr h2)

/-! ### C10: the fill light mirrors the key light and is at most 0.4× as
intense -/

/-- C10: the fill light direction is the key light direction with x and z
negated and y kept; its irradiance is a neutral gray (equal components);
its intensity is the key intensity times the drawn factor; and for a
factor in [0.1, 0.4] and a nonnegative key intensity the fill intensity is
at most 0.4 times the key intensity. -/
theorem fill_light_relation (d : LightDraws) (h1 : 1/10 ≤ d.fillFactor)
    (h2 : d.fillFactor ≤ 2/5) (h0 : 0 ≤ d.intensity) :
    fill_direction d =
      (-(key_direction d).1, (key_direction d).2.1, -(key_direction d).2.2) ∧
    (fill_irr d).1 = (fill_irr d).2.1 ∧
    (fill_irr d).2.1 = (fill_irr d).2.2 ∧
    fill_intensity d = d.intensity * d.fillFactor ∧
    fill_intensity d ≤ (2/5) * d.intensity := by
  refine ⟨rfl, rfl, rfl, rfl, ?_⟩
  rw [fill_intensity, mul_comm]
  exact mul_le_mul_of_nonneg_right h2 h0

/-! ### C2: files are not write-once — metadata.jsonl is rewritten by
every generator run -/

/-- C2 fails on the code: the generator ends every run by opening
`metadata.jsonl` in write mode and writing only the records of that run.  After
a completed 1-frame run, running the generator again skips the frame,
collects no records, and rewrites `metadata.jsonl` with empty contents,
changing the file a previous run wrote. -/
theorem write_once_counterexample :
    (genRun rbuf0 rough0 (genRun rbuf0 rough0 emptyFS 1).fs 1).fs
        FPath.metadata ≠
      (genRun rbuf0 rough0 emptyFS 1).fs FPath.metadata := by
  have h1 : (genRun rbuf0 rough0 emptyFS 1).fs FPath.metadata =
      some (FileData.txt
        (jsonlContent (genRun rbuf0 rough0 emptyFS 1).records)) := by
    rw [genRun_fs, genRun_records, FS.update_same]
  have h2 : (genRun rbuf0 rough0 (genRun rbuf0 rough0 emptyFS 1).fs 1).fs
      FPath.metadata = some (FileData.txt (jsonlContent [])) := by
    rw [genRun_rerun_fs rbuf0 rough0 emptyFS (Nat.le_refl 1), FS.update_same]
  have hrec : (genRun rbuf0 rough0 emptyFS 1).records =
      [recordFor 0 (rough0 0)] := rfl
  rw [h1, h2, hrec]
  intro h
  injection h with h4
  injection h4 with h5
  exact absurd h5 (by decide)

/-- C2 amended: a second generator run over the output of a completed run, with
a smaller or equal sample count, never changes any render, AO or
conditioning file; but `metadata.jsonl` is rewritten with exactly the new
record list of the new run — here empty, because every frame is skipped — so it is
not write-once. -/
theorem write_once_amended (rbuf : Nat → Buf) (rough : Nat → ℚ) (fs0 : FS)
    (n n' j : Nat) (h : n' ≤ n) :
    (genRun rbuf rough (genRun rbuf rough fs0 n).fs n').fs (FPath.render j) =
      (genRun rbuf rough fs0 n).fs (FPath.render j) ∧
    (genRun rbuf rough (genRun rbuf rough fs0 n).fs n').fs (FPath.ao j) =
      (genRun rbuf rough fs0 n).fs (FPath.ao j) ∧
    (genRun rbuf rough (genRun rbuf rough fs0 n).fs n').fs
        (FPath.conditioning j) =
      (genRun rbuf rough fs0 n).fs (FPath.conditioning j) ∧
    (genRun rbuf rough (genRun rbuf rough fs0 n).fs n').fs FPath.metadata =
      some (FileData.txt (jsonlContent [])) := by
  rw [genRun_rerun_fs rbuf rough fs0 h]
  refine ⟨?_, ?_, ?_, ?_⟩
  · rw [FS.update_other _ _ (by simp)]
  · rw [FS.update_other _ _ (by simp)]
  · rw [FS.update_other _ _ (by simp)]
  · rw [FS.update_same]

/-! ### Witnesses: the theorems with hypotheses, evaluated on the concrete
instances -/

theorem conditioning_pixelwise_max_witness :
    frameBoth.beauty = some beautyConst ∧ frameBoth.ao = some aoConst ∧
    ((sketchStep cvId sketchInit frameBoth).writes = sketchInit.writes ++
        [(condName frameBoth.frame,
          cvMax (cannyEdges cvId beautyConst) (aoShadingOf aoConst))] ∧
      cvMax (cannyEdges cvId beautyConst) (aoShadingOf aoConst) 0 0 =
        max (cannyEdges cvId beautyConst 0 0)
          (scaleAO (bitwiseNot (aoConst 0 0))) ∧
      cannyEdges cvId beautyConst 0 0 ≤
        cvMax (cannyEdges cvId beautyConst) (aoShadingOf aoConst) 0 0 ∧
      (sketchStep cvId sketchInit frameBoth).processed =
        sketchInit.processed + 1 ∧
      (sketchStep cvId sketchInit frameBoth).skipped = sketchInit.skipped) :=
  ⟨rfl, rfl, conditioning_pixelwise_max cvId sketchInit frameBoth beautyConst
    aoConst 0 0 rfl rfl⟩

theorem ao_missing_fallback_witness :
    frameNoAO.beauty = some beautyConst ∧ frameNoAO.ao = none ∧
    ((sketchStep cvId sketchInit frameNoAO).writes = sketchInit.writes ++
        [(condName frameNoAO.frame,
          cvMax (cannyEdges cvId beautyConst) zeroImg)] ∧
      cvMax (cannyEdges cvId beautyConst) zeroImg 0 0 =
        cannyEdges cvId beautyConst 0 0 ∧
      (sketchStep cvId sketchInit frameNoAO).processed =
        sketchInit.processed + 1 ∧
      (sketchStep cvId sketchInit frameNoAO).skipped = sketchInit.skipped ∧
      (sketchStep cvId sketchInit frameNoAO).warnings =
        sketchInit.warnings + 1) :=
  ⟨rfl, rfl, ao_missing_fallback cvId sketchInit frameNoAO beautyConst 0 0
    rfl rfl⟩

theorem beauty_unreadable_skip_witness :
    frameNoBeauty.beauty = none ∧
    (sketchStep cvId sketchInit frameNoBeauty =
        { sketchInit with skipped := sketchInit.skipped + 1 } ∧
      (sketchStep cvId sketchInit frameNoBeauty).writes = sketchInit.writes ∧
      (sketchStep cvId sketchInit frameNoBeauty).processed =
        sketchInit.processed ∧
      (sketchStep cvId sketchInit frameNoBeauty).skipped =
        sketchInit.skipped + 1 ∧
      sketchRunFrom cvId sketchInit (frameNoBeauty :: [frameBoth]) =
        sketchRunFrom cvId (sketchStep cvId sketchInit frameNoBeauty)
          [frameBoth]) :=
  ⟨rfl, beauty_unreadable_skip cvId sketchInit frameNoBeauty [frameBoth] rfl⟩

theorem resume_idempotent_witness :
    1 ≤ 1 ∧
    ((genStep rbuf0 rough0 st0 0 = st0 ↔ skips st0.fs 0 = true) ∧
      (genRun rbuf0 rough0 (genRun rbuf0 rough0 emptyFS 1).fs 1).fs
          (FPath.render 0) =
        (genRun rbuf0 rough0 emptyFS 1).fs (FPath.render 0) ∧
      (genRun rbuf0 rough0 (genRun rbuf0 rough0 emptyFS 1).fs 1).fs
          (FPath.ao 0) =
        (genRun rbuf0 rough0 emptyFS 1).fs (FPath.ao 0)) :=
  ⟨Nat.le_refl 1,
    resume_idempotent rbuf0 rough0 emptyFS st0 0 1 1 0 (Nat.le_refl 1)⟩

theorem ao_channel_selection_witness :
    7 ≤ constBuf.channels ∧ constBuf3.channels < 7 ∧
    (ao_uint8 constBuf 0 0 = toByte
        ((constBuf.data 0 0 4 + constBuf.data 0 0 5 + constBuf.data 0 0 6)
          / 3) ∧
      aoWarning constBuf = false) ∧
    (ao_uint8 constBuf3 0 0 = toByte
        ((constBuf3.data 0 0 0 + constBuf3.data 0 0 1 + constBuf3.data 0 0 2)
          / 3) ∧
      aoWarning constBuf3 = true) :=
  ⟨by decide, by decide,
    (ao_channel_selection constBuf 0 0).1 (by decide),
    (ao_channel_selection constBuf3 0 0).2.1 (by decide)⟩

theorem fill_light_relation_witness :
    1/10 ≤ lightD.fillFactor ∧ lightD.fillFactor ≤ 2/5 ∧
    0 ≤ lightD.intensity ∧
    (fill_direction lightD =
        (-(key_direction lightD).1, (key_direction lightD).2.1,
          -(key_direction lightD).2.2) ∧
      (fill_irr lightD).1 = (fill_irr lightD).2.1 ∧
      (fill_irr lightD).2.1 = (fill_irr lightD).2.2 ∧
      fill_intensity lightD = lightD.intensity * lightD.fillFactor ∧
      fill_intensity lightD ≤ (2/5) * lightD.intensity) :=
  ⟨by norm_num [lightD], by norm_num [lightD], by norm_num [lightD],
    fill_light_relation lightD (by norm_num [lightD]) (by norm_num [lightD])
      (by norm_num [lightD])⟩

theorem write_once_amended_witness :
    1 ≤ 1 ∧
    ((genRun rbuf0 rough0 (genRun rbuf0 rough0 emptyFS 1).fs 1).fs
          (FPath.render 0) =
        (genRun rbuf0 rough0 emptyFS 1).fs (FPath.render 0) ∧
      (genRun rbuf0 rough0 (genRun rbuf0 rough0 emptyFS 1).fs 1).fs
          (FPath.ao 0) =
        (genRun rbuf0 rough0 emptyFS 1).fs (FPath.ao 0) ∧
      (genRun rbuf0 rough0 (genRun rbuf0 rough0 emptyFS 1).fs 1).fs
          (FPath.conditioning 0) =
        (genRun rbuf0 rough0 emptyFS 1).fs (FPath.conditioning 0) ∧
      (genRun rbuf0 rough0 (genRun rbuf0 rough0 emptyFS 1).fs 1).fs
          FPath.metadata = some (FileData.txt (jsonlContent []))) :=
  ⟨Nat.le_refl 1,
    write_once_amended rbuf0 rough0 emptyFS 1 1 0 (Nat.le_refl 1)⟩

end ClothPipeline
